import Mathlib

/-!
Verification of the google-geoApi repository: a shallow embedding of the
`geomap` package (outbound Google Maps query clients) and the
`getnearbylocation` Lambda handler, with theorems settling the spec claims.

JSON payloads are modelled as an abstract syntax tree (`GoValue`) whose
numbers are rationals (Go's float64 values, at the value level) and whose
objects are ordered association lists, as a byte stream presents them.
Decoding a JSON value into a Go `interface{}` produces an unordered
`map[string]interface{}`; we model that map by its canonical form
(keys strictly sorted, duplicates resolved last-write-wins), computed by
`GoValue.canon`, which is also the order `encoding/json.Marshal` emits map
keys in.
-/

/-- Model of a Go `error` value: we only track the message text
(`errors.New`) / identity of the error. -/
structure GoError where
  msg : String
deriving DecidableEq, Repr

/-- JSON abstract syntax: the parse tree of a JSON document.  Numbers are
modelled at the value level as rationals (every JSON literal denotes one);
objects keep textual order and may contain duplicate keys, as a raw
document can. -/
inductive GoValue where
  | null : GoValue
  | bool (b : Bool) : GoValue
  | num (q : Rat) : GoValue
  | str (s : String) : GoValue
  | arr (xs : List GoValue) : GoValue
  | obj (fs : List (String × GoValue)) : GoValue
deriving Repr

namespace GoValue

/-- Insert a key/value pair into a key-sorted association list, replacing
an existing binding of the same key (Go map assignment). -/
def insertField (k : String) (v : GoValue) : List (String × GoValue) → List (String × GoValue)
  | [] => [(k, v)]
  | (k', v') :: rest =>
    if k < k' then (k, v) :: (k', v') :: rest
    else if k = k' then (k, v) :: rest
    else (k', v') :: insertField k v rest

/-- Build the canonical (sorted, duplicate-free) form of an object's field
list, processing fields in textual order so that a later duplicate key
overwrites an earlier one, exactly as sequential Go map assignment does. -/
def canonFields (fs : List (String × GoValue)) : List (String × GoValue) :=
  fs.foldl (fun acc p => insertField p.1 p.2 acc) []

/-- Canonicalize a JSON value the way decoding it into a Go `interface{}`
does: arrays become `[]interface{}` element-wise, objects become
`map[string]interface{}` (unordered, later duplicate wins), scalars are
kept.  The canonical object form is key-sorted, which is also the key
order `json.Marshal` emits for a Go map. -/
def canon : GoValue → GoValue
  | .null => .null
  | .bool b => .bool b
  | .num q => .num q
  | .str s => .str s
  | .arr xs => .arr (xs.attach.map (fun x => canon x.1))
  | .obj fs => .obj (canonFields (fs.attach.map (fun p => (p.1.1, canon p.1.2))))
decreasing_by
  · have h1 := List.sizeOf_lt_of_mem x.2
    simp only [arr.sizeOf_spec]
    omega
  · have h1 := List.sizeOf_lt_of_mem p.2
    have h2 : sizeOf p.1.2 < sizeOf p.1 := by
      obtain ⟨a, b⟩ := p.1
      simp only [Prod.mk.sizeOf_spec]
      omega
    simp only [obj.sizeOf_spec]
    omega

@[simp] lemma canon_null : canon .null = .null := by simp [canon]

@[simp] lemma canon_bool (b : Bool) : canon (.bool b) = .bool b := by simp [canon]

@[simp] lemma canon_num (q : Rat) : canon (.num q) = .num q := by simp [canon]

@[simp] lemma canon_str (s : String) : canon (.str s) = .str s := by simp [canon]

lemma canon_arr (xs : List GoValue) : canon (.arr xs) = .arr (xs.map canon) := by
  rw [canon]
  congr 1
  exact List.attach_map_val xs canon

lemma canon_obj (fs : List (String × GoValue)) :
    canon (.obj fs) = .obj (canonFields (fs.map (fun p => (p.1, canon p.2)))) := by
  rw [canon]
  congr 2
  exact List.attach_map_val fs (fun p => (p.1, canon p.2))

/-- The keys of an association list are strictly increasing. -/
def SortedKeys (l : List (String × GoValue)) : Prop :=
  l.Pairwise (fun p q => p.1 < q.1)

lemma mem_insertField {k : String} {v : GoValue} {l : List (String × GoValue)}
    {p : String × GoValue} (h : p ∈ insertField k v l) : p = (k, v) ∨ p ∈ l := by
  induction l with
  | nil =>
    simp only [insertField, List.mem_singleton] at h
    exact Or.inl h
  | cons q rest ih =>
    obtain ⟨k', v'⟩ := q
    simp only [insertField] at h
    split at h
    · rcases List.mem_cons.mp h with h | h
      · exact Or.inl h
      · exact Or.inr h
    · split at h
      · rcases List.mem_cons.mp h with h | h
        · exact Or.inl h
        · exact Or.inr (List.mem_cons_of_mem _ h)
      · rcases List.mem_cons.mp h with h | h
        · exact Or.inr (h ▸ List.mem_cons_self _ _)
        · rcases ih h with h' | h'
          · exact Or.inl h'
          · exact Or.inr (List.mem_cons_of_mem _ h')

lemma sortedKeys_insertField {k : String} {v : GoValue} {l : List (String × GoValue)}
    (h : SortedKeys l) : SortedKeys (insertField k v l) := by
  induction l with
  | nil =>
    simp [insertField, SortedKeys]
  | cons q rest ih =>
    obtain ⟨k', v'⟩ := q
    simp only [SortedKeys, List.pairwise_cons] at h
    obtain ⟨hq, hrest⟩ := h
    simp only [insertField]
    split
    · rename_i hlt
      simp only [SortedKeys, List.pairwise_cons]
      refine ⟨?_, hq, hrest⟩
      intro b hb
      rcases List.mem_cons.mp hb with hb | hb
      · subst hb
        exact hlt
      · exact lt_trans hlt (hq b hb)
    · split
      · rename_i hnlt heq
        simp only [SortedKeys, List.pairwise_cons]
        refine ⟨?_, hrest⟩
        intro b hb
        rw [heq]
        exact hq b hb
      · rename_i hnlt hne
        have hgt : k' < k := by
          rcases lt_or_gt_of_ne hne with hl | hg
          · exact absurd hl hnlt
          · exact hg
        simp only [SortedKeys, List.pairwise_cons]
        refine ⟨?_, ih hrest⟩
        intro b hb
        rcases mem_insertField hb with hb' | hb'
        · rw [hb']
          exact hgt
        · exact hq b hb'

lemma insertField_append {k : String} {v : GoValue} {l : List (String × GoValue)}
    (h : ∀ p ∈ l, p.1 < k) : insertField k v l = l ++ [(k, v)] := by
  induction l with
  | nil => simp [insertField]
  | cons q rest ih =>
    obtain ⟨k', v'⟩ := q
    have hq : k' < k := h (k', v') (List.mem_cons_self _ _)
    simp only [insertField]
    rw [if_neg (lt_asymm hq), if_neg (ne_of_gt hq), ih (fun p hp => h p (List.mem_cons_of_mem _ hp))]
    simp

lemma foldl_insertField_sorted_id : ∀ (l acc : List (String × GoValue)),
    SortedKeys (acc ++ l) →
    l.foldl (fun acc p => insertField p.1 p.2 acc) acc = acc ++ l := by
  intro l
  induction l with
  | nil =>
    intro acc _
    simp
  | cons q rest ih =>
    intro acc h
    have hbound : ∀ p ∈ acc, p.1 < q.1 := by
      intro p hp
      exact (List.pairwise_append.mp h).2.2 p hp q (List.mem_cons_self _ _)
    simp only [List.foldl_cons]
    rw [insertField_append hbound]
    have hs : SortedKeys ((acc ++ [q]) ++ rest) := by
      simp only [SortedKeys, List.append_assoc, List.singleton_append]
      exact h
    rw [ih (acc ++ [(q.1, q.2)]) hs]
    simp

lemma canonFields_sorted_id {l : List (String × GoValue)} (h : SortedKeys l) :
    canonFields l = l := by
  have := foldl_insertField_sorted_id l [] (by simpa using h)
  simpa [canonFields] using this

lemma foldl_insertField_sorted : ∀ (l acc : List (String × GoValue)),
    SortedKeys acc →
    SortedKeys (l.foldl (fun acc p => insertField p.1 p.2 acc) acc) := by
  intro l
  induction l with
  | nil =>
    intro acc hacc
    simpa using hacc
  | cons q rest ih =>
    intro acc hacc
    simp only [List.foldl_cons]
    exact ih _ (sortedKeys_insertField hacc)

lemma sortedKeys_canonFields (l : List (String × GoValue)) :
    SortedKeys (canonFields l) :=
  foldl_insertField_sorted l [] (by simp [SortedKeys])

lemma mem_foldl_insertField : ∀ (l acc : List (String × GoValue))
    {p : String × GoValue},
    p ∈ l.foldl (fun acc p => insertField p.1 p.2 acc) acc → p ∈ acc ∨ p ∈ l := by
  intro l
  induction l with
  | nil =>
    intro acc p h
    exact Or.inl (by simpa using h)
  | cons q rest ih =>
    intro acc p h
    simp only [List.foldl_cons] at h
    rcases ih _ h with h' | h'
    · rcases mem_insertField h' with h3 | h3
      · exact Or.inr (h3 ▸ List.mem_cons_self _ _)
      · exact Or.inl h3
    · exact Or.inr (List.mem_cons_of_mem _ h')

lemma mem_canonFields {l : List (String × GoValue)} {p : String × GoValue}
    (h : p ∈ canonFields l) : p ∈ l := by
  rcases mem_foldl_insertField l [] h with h' | h'
  · simp at h'
  · exact h'

/-- Structural induction over `GoValue`, recursing into array elements and
object field values. -/
theorem goValue_induction {P : GoValue → Prop}
    (hnull : P .null) (hbool : ∀ b, P (.bool b)) (hnum : ∀ q, P (.num q))
    (hstr : ∀ s, P (.str s))
    (harr : ∀ xs, (∀ x ∈ xs, P x) → P (.arr xs))
    (hobj : ∀ fs, (∀ p ∈ fs, P p.2) → P (.obj fs)) : ∀ v, P v
  | .null => hnull
  | .bool b => hbool b
  | .num q => hnum q
  | .str s => hstr s
  | .arr xs => harr xs (fun x _ =>
      goValue_induction hnull hbool hnum hstr harr hobj x)
  | .obj fs => hobj fs (fun p _ =>
      goValue_induction hnull hbool hnum hstr harr hobj p.2)
decreasing_by
  · rename_i hmem
    have h1 := List.sizeOf_lt_of_mem hmem
    simp only [arr.sizeOf_spec]
    omega
  · rename_i hmem
    have h1 := List.sizeOf_lt_of_mem hmem
    have h2 : sizeOf p.2 < sizeOf p := by
      obtain ⟨a, b⟩ := p
      simp only [Prod.mk.sizeOf_spec]
      omega
    simp only [obj.sizeOf_spec]
    omega

/-- Canonicalization is idempotent: re-decoding the marshalled form of a
decoded `interface{}` value gives the same value back. -/
theorem canon_idem : ∀ v : GoValue, canon (canon v) = canon v := by
  refine goValue_induction (by simp) (fun b => by simp) (fun q => by simp) (fun s => by simp) ?_ ?_
  · intro xs ih
    rw [canon_arr, canon_arr, List.map_map]
    congr 1
    exact List.map_congr_left (fun x hx => ih x hx)
  · intro fs ih
    rw [canon_obj, canon_obj]
    congr 1
    have hmap : (canonFields (fs.map fun p => (p.1, canon p.2))).map
        (fun p => (p.1, canon p.2)) = canonFields (fs.map fun p => (p.1, canon p.2)) := by
      have hcongr : ∀ p ∈ canonFields (fs.map fun p => (p.1, canon p.2)),
          (fun (p : String × GoValue) => (p.1, canon p.2)) p = id p := by
        intro p hp
        have hmem := mem_canonFields hp
        simp only [List.mem_map] at hmem
        obtain ⟨q, hq, hpq⟩ := hmem
        subst hpq
        simp [ih q hq]
      rw [List.map_congr_left hcongr, List.map_id]
    rw [hmap, canonFields_sorted_id (sortedKeys_canonFields _)]

end GoValue

/-- Last binding of a key in an object's field list: `json.Unmarshal`
processes object keys in textual order and a later duplicate overwrites an
earlier one. -/
def lookupLast : List (String × GoValue) → String → Option GoValue
  | [], _ => none
  | p :: rest, k =>
    match lookupLast rest k with
    | some v => some v
    | none => if p.1 = k then some p.2 else none

/-- `json.Unmarshal` of a JSON value into a Go `string`: strings are taken
as-is, `null` leaves the zero value `""`, anything else is a type error. -/
def decodeString : GoValue → Except GoError String
  | .str s => .ok s
  | .null => .ok ""
  | _ => .error ⟨"json: cannot unmarshal value into Go value of type string"⟩

/-- `json.Unmarshal` into a Go `float64` (numbers modelled as rationals). -/
def decodeFloat : GoValue → Except GoError Rat
  | .num q => .ok q
  | .null => .ok 0
  | _ => .error ⟨"json: cannot unmarshal value into Go value of type float64"⟩

/-- `json.Unmarshal` into a Go `int`: the number must be integral. -/
def decodeInt : GoValue → Except GoError Int
  | .num q =>
    if q.den = 1 then .ok q.num
    else .error ⟨"json: cannot unmarshal number into Go value of type int"⟩
  | .null => .ok 0
  | _ => .error ⟨"json: cannot unmarshal value into Go value of type int"⟩

/-- `json.Unmarshal` into a Go `bool`. -/
def decodeBool : GoValue → Except GoError Bool
  | .bool b => .ok b
  | .null => .ok false
  | _ => .error ⟨"json: cannot unmarshal value into Go value of type bool"⟩

/-- `json.Unmarshal` into a Go `interface{}`: always succeeds, producing
the canonical (map-like) form of the JSON value. -/
def decodeIface (v : GoValue) : Except GoError GoValue := .ok v.canon

/-- `json.Unmarshal` into a Go slice `[]T`: `null` leaves the slice `nil`
(modelled `none`), an array decodes element-wise, anything else is a type
error. -/
def decodeList (dec : GoValue → Except GoError α) : GoValue → Except GoError (Option (List α))
  | .null => .ok none
  | .arr xs => (xs.mapM dec).map some
  | _ => .error ⟨"json: cannot unmarshal value into Go slice"⟩

/-- Decode one struct field: an absent key leaves the field's zero value,
a present key decodes its (last) value. -/
def decodeField (fs : List (String × GoValue)) (k : String)
    (dec : GoValue → Except GoError α) (zero : α) : Except GoError α :=
  match lookupLast fs k with
  | none => .ok zero
  | some v => dec v

/-- `json.Marshal` of a Go slice: a `nil` slice marshals as `null`. -/
def encodeOptList (enc : α → GoValue) : Option (List α) → GoValue
  | none => .null
  | some l => .arr (l.map enc)

namespace geomap

/-- Go struct `GoogleLocation` (geomap package). -/
structure GoogleLocation where
  lat : Rat
  lng : Rat
deriving Repr, DecidableEq

def GoogleLocation.zero : GoogleLocation := ⟨0, 0⟩

/-- Go struct `GoogleViewport`. -/
structure GoogleViewport where
  northeast : GoogleLocation
  southWest : GoogleLocation
deriving Repr, DecidableEq

def GoogleViewport.zero : GoogleViewport := ⟨GoogleLocation.zero, GoogleLocation.zero⟩

/-- Go struct `GoogleGeometry`; `location_type` carries `omitempty`. -/
structure GoogleGeometry where
  location : GoogleLocation
  locationType : String
  viewport : GoogleViewport
deriving Repr, DecidableEq

def GoogleGeometry.zero : GoogleGeometry := ⟨GoogleLocation.zero, "", GoogleViewport.zero⟩

/-- Go struct `GooglePlusCode`. -/
structure GooglePlusCode where
  compoundCode : String
  globalCode : String
deriving Repr, DecidableEq

def GooglePlusCode.zero : GooglePlusCode := ⟨"", ""⟩

/-- Go struct `AddressComponent`. -/
structure AddressComponent where
  longName : String
  shortName : String
  types : Option (List String)
deriving Repr, DecidableEq

def AddressComponent.zero : AddressComponent := ⟨"", "", none⟩

/-- Go struct `Photo`. -/
structure Photo where
  height : Int
  htmlAttributions : Option (List String)
  photoReference : String
  width : Int
deriving Repr, DecidableEq

def Photo.zero : Photo := ⟨0, none, "", 0⟩

/-- Go struct `OpeningHour`. -/
structure OpeningHour where
  openNow : Bool
deriving Repr, DecidableEq

def OpeningHour.zero : OpeningHour := ⟨false⟩

/-- Go struct `Candidate`. -/
structure Candidate where
  formattedAddress : String
  name : String
  photos : Option (List Photo)
  rating : Int
deriving Repr, DecidableEq

def Candidate.zero : Candidate := ⟨"", "", none, 0⟩

/-- The anonymous element struct of `GoogleGeocodeResponse.Results`. -/
structure GeocodeResult where
  addressComponents : Option (List AddressComponent)
  formattedAddress : String
  geometry : GoogleGeometry
  placeID : String
  plusCode : GooglePlusCode
  types : Option (List String)
deriving Repr, DecidableEq

def GeocodeResult.zero : GeocodeResult :=
  ⟨none, "", GoogleGeometry.zero, "", GooglePlusCode.zero, none⟩

/-- Go struct `GoogleGeocodeResponse`. -/
structure GoogleGeocodeResponse where
  results : Option (List GeocodeResult)
  status : String
deriving Repr, DecidableEq

def GoogleGeocodeResponse.zero : GoogleGeocodeResponse := ⟨none, ""⟩

/-- Go struct `GooglePlaceSearchResponse`. -/
structure GooglePlaceSearchResponse where
  candidates : Option (List Candidate)
  status : String
deriving Repr, DecidableEq

def GooglePlaceSearchResponse.zero : GooglePlaceSearchResponse := ⟨none, ""⟩

/-- The anonymous element struct of `GoogleNearbySearchResponse.Results`;
`price_level` carries `omitempty`. -/
structure NearbyResult where
  geometry : GoogleGeometry
  icon : String
  id : String
  name : String
  openingHours : OpeningHour
  photos : Option (List Photo)
  placeID : String
  plusCode : GooglePlusCode
  priceLevel : Int
  rating : Rat
  reference : String
  scope : String
  types : Option (List String)
  userRatingsTotal : Int
  vicinity : String
deriving Repr, DecidableEq

def NearbyResult.zero : NearbyResult :=
  ⟨GoogleGeometry.zero, "", "", "", OpeningHour.zero, none, "", GooglePlusCode.zero,
   0, 0, "", "", none, 0, ""⟩

/-- Go struct `GoogleNearbySearchResponse`. -/
structure GoogleNearbySearchResponse where
  htmlAttributions : Option (List GoValue)
  results : Option (List NearbyResult)
  status : String
deriving Repr

def GoogleNearbySearchResponse.zero : GoogleNearbySearchResponse := ⟨none, none, ""⟩

/-! `json.Unmarshal` into each struct: `null` leaves the zero value, an
object decodes field-by-field (absent key = zero value, unknown keys
ignored), anything else is a type error. -/

def structTypeError : GoError := ⟨"json: cannot unmarshal value into Go struct"⟩

def decodeGoogleLocation : GoValue → Except GoError GoogleLocation
  | .null => .ok GoogleLocation.zero
  | .obj fs => do
    let lat ← decodeField fs "lat" decodeFloat 0
    let lng ← decodeField fs "lng" decodeFloat 0
    .ok ⟨lat, lng⟩
  | _ => .error structTypeError

def decodeGoogleViewport : GoValue → Except GoError GoogleViewport
  | .null => .ok GoogleViewport.zero
  | .obj fs => do
    let ne ← decodeField fs "northeast" decodeGoogleLocation GoogleLocation.zero
    let sw ← decodeField fs "southwest" decodeGoogleLocation GoogleLocation.zero
    .ok ⟨ne, sw⟩
  | _ => .error structTypeError

def decodeGoogleGeometry : GoValue → Except GoError GoogleGeometry
  | .null => .ok GoogleGeometry.zero
  | .obj fs => do
    let loc ← decodeField fs "location" decodeGoogleLocation GoogleLocation.zero
    let lt ← decodeField fs "location_type" decodeString ""
    let vp ← decodeField fs "viewport" decodeGoogleViewport GoogleViewport.zero
    .ok ⟨loc, lt, vp⟩
  | _ => .error structTypeError

def decodeGooglePlusCode : GoValue → Except GoError GooglePlusCode
  | .null => .ok GooglePlusCode.zero
  | .obj fs => do
    let cc ← decodeField fs "compound_code" decodeString ""
    let gc ← decodeField fs "global_code" decodeString ""
    .ok ⟨cc, gc⟩
  | _ => .error structTypeError

def decodeAddressComponent : GoValue → Except GoError AddressComponent
  | .null => .ok AddressComponent.zero
  | .obj fs => do
    let ln ← decodeField fs "long_name" decodeString ""
    let sn ← decodeField fs "short_name" decodeString ""
    let ts ← decodeField fs "types" (decodeList decodeString) none
    .ok ⟨ln, sn, ts⟩
  | _ => .error structTypeError

def decodePhoto : GoValue → Except GoError Photo
  | .null => .ok Photo.zero
  | .obj fs => do
    let h ← decodeField fs "height" decodeInt 0
    let ha ← decodeField fs "html_attributions" (decodeList decodeString) none
    let pr ← decodeField fs "photo_reference" decodeString ""
    let w ← decodeField fs "width" decodeInt 0
    .ok ⟨h, ha, pr, w⟩
  | _ => .error structTypeError

def decodeOpeningHour : GoValue → Except GoError OpeningHour
  | .null => .ok OpeningHour.zero
  | .obj fs => do
    let op ← decodeField fs "open_now" decodeBool false
    .ok ⟨op⟩
  | _ => .error structTypeError

def decodeCandidate : GoValue → Except GoError Candidate
  | .null => .ok Candidate.zero
  | .obj fs => do
    let fa ← decodeField fs "formatted_address" decodeString ""
    let n ← decodeField fs "name" decodeString ""
    let ph ← decodeField fs "photos" (decodeList decodePhoto) none
    let r ← decodeField fs "rating" decodeInt 0
    .ok ⟨fa, n, ph, r⟩
  | _ => .error structTypeError

def decodeGeocodeResult : GoValue → Except GoError GeocodeResult
  | .null => .ok GeocodeResult.zero
  | .obj fs => do
    let ac ← decodeField fs "address_components" (decodeList decodeAddressComponent) none
    let fa ← decodeField fs "formatted_address" decodeString ""
    let g ← decodeField fs "geometry" decodeGoogleGeometry GoogleGeometry.zero
    let pid ← decodeField fs "place_id" decodeString ""
    let pc ← decodeField fs "plus_code" decodeGooglePlusCode GooglePlusCode.zero
    let ts ← decodeField fs "types" (decodeList decodeString) none
    .ok ⟨ac, fa, g, pid, pc, ts⟩
  | _ => .error structTypeError

def decodeGoogleGeocodeResponse : GoValue → Except GoError GoogleGeocodeResponse
  | .null => .ok GoogleGeocodeResponse.zero
  | .obj fs => do
    let rs ← decodeField fs "results" (decodeList decodeGeocodeResult) none
    let st ← decodeField fs "status" decodeString ""
    .ok ⟨rs, st⟩
  | _ => .error structTypeError

def decodeGooglePlaceSearchResponse : GoValue → Except GoError GooglePlaceSearchResponse
  | .null => .ok GooglePlaceSearchResponse.zero
  | .obj fs => do
    let cs ← decodeField fs "candidates" (decodeList decodeCandidate) none
    let st ← decodeField fs "status" decodeString ""
    .ok ⟨cs, st⟩
  | _ => .error structTypeError

def decodeNearbyResult : GoValue → Except GoError NearbyResult
  | .null => .ok NearbyResult.zero
  | .obj fs => do
    let g ← decodeField fs "geometry" decodeGoogleGeometry GoogleGeometry.zero
    let ic ← decodeField fs "icon" decodeString ""
    let i ← decodeField fs "id" decodeString ""
    let n ← decodeField fs "name" decodeString ""
    let oh ← decodeField fs "opening_hours" decodeOpeningHour OpeningHour.zero
    let ph ← decodeField fs "photos" (decodeList decodePhoto) none
    let pid ← decodeField fs "place_id" decodeString ""
    let pc ← decodeField fs "plus_code" decodeGooglePlusCode GooglePlusCode.zero
    let pl ← decodeField fs "price_level" decodeInt 0
    let r ← decodeField fs "rating" decodeFloat 0
    let rf ← decodeField fs "reference" decodeString ""
    let sc ← decodeField fs "scope" decodeString ""
    let ts ← decodeField fs "types" (decodeList decodeString) none
    let ur ← decodeField fs "user_ratings_total" decodeInt 0
    let vc ← decodeField fs "vicinity" decodeString ""
    .ok ⟨g, ic, i, n, oh, ph, pid, pc, pl, r, rf, sc, ts, ur, vc⟩
  | _ => .error structTypeError

def decodeGoogleNearbySearchResponse : GoValue → Except GoError GoogleNearbySearchResponse
  | .null => .ok GoogleNearbySearchResponse.zero
  | .obj fs => do
    let ha ← decodeField fs "html_attributions" (decodeList decodeIface) none
    let rs ← decodeField fs "results" (decodeList decodeNearbyResult) none
    let st ← decodeField fs "status" decodeString ""
    .ok ⟨ha, rs, st⟩
  | _ => .error structTypeError

/-! `json.Marshal` of the nearby-search response family: struct fields in
declaration order under their tags, `omitempty` fields dropped at their
zero value, `nil` slices as `null`, map-valued `interface{}` data in
canonical (sorted-key) form. -/

def encodeGoogleLocation (x : GoogleLocation) : GoValue :=
  .obj [("lat", .num x.lat), ("lng", .num x.lng)]

def encodeGoogleViewport (x : GoogleViewport) : GoValue :=
  .obj [("northeast", encodeGoogleLocation x.northeast),
        ("southwest", encodeGoogleLocation x.southWest)]

def encodeGoogleGeometry (x : GoogleGeometry) : GoValue :=
  .obj ([("location", encodeGoogleLocation x.location)] ++
        (if x.locationType = "" then [] else [("location_type", .str x.locationType)]) ++
        [("viewport", encodeGoogleViewport x.viewport)])

def encodeGooglePlusCode (x : GooglePlusCode) : GoValue :=
  .obj [("compound_code", .str x.compoundCode), ("global_code", .str x.globalCode)]

def encodePhoto (x : Photo) : GoValue :=
  .obj [("height", .num (x.height : Rat)),
        ("html_attributions", encodeOptList GoValue.str x.htmlAttributions),
        ("photo_reference", .str x.photoReference),
        ("width", .num (x.width : Rat))]

def encodeOpeningHour (x : OpeningHour) : GoValue :=
  .obj [("open_now", .bool x.openNow)]

def encodeNearbyResult (x : NearbyResult) : GoValue :=
  .obj ([("geometry", encodeGoogleGeometry x.geometry),
         ("icon", .str x.icon),
         ("id", .str x.id),
         ("name", .str x.name),
         ("opening_hours", encodeOpeningHour x.openingHours),
         ("photos", encodeOptList encodePhoto x.photos),
         ("place_id", .str x.placeID),
         ("plus_code", encodeGooglePlusCode x.plusCode)] ++
        (if x.priceLevel = 0 then [] else [("price_level", .num (x.priceLevel : Rat))]) ++
        [("rating", .num x.rating),
         ("reference", .str x.reference),
         ("scope", .str x.scope),
         ("types", encodeOptList GoValue.str x.types),
         ("user_ratings_total", .num (x.userRatingsTotal : Rat)),
         ("vicinity", .str x.vicinity)])

def encodeGoogleNearbySearchResponse (x : GoogleNearbySearchResponse) : GoValue :=
  .obj [("html_attributions", encodeOptList id x.htmlAttributions),
        ("results", encodeOptList encodeNearbyResult x.results),
        ("status", .str x.status)]

/-! Round-trip lemmas: re-decoding the encoding of a decoded value. -/

lemma mapM_encode_roundtrip {α : Type} (dec : GoValue → Except GoError α)
    (enc : α → GoValue) :
    ∀ l : List α, (∀ x ∈ l, dec (enc x) = .ok x) → (l.map enc).mapM dec = .ok l := by
  intro l
  induction l with
  | nil => intro _; rfl
  | cons x xs ih =>
    intro h
    simp only [List.map_cons, List.mapM_cons, h x (List.mem_cons_self _ _),
      ih (fun y hy => h y (List.mem_cons_of_mem _ hy)), bind, Except.bind, pure, Except.pure]

lemma decodeList_encodeOptList {α : Type} {dec : GoValue → Except GoError α}
    {enc : α → GoValue} (a : Option (List α))
    (h : ∀ l, a = some l → ∀ x ∈ l, dec (enc x) = .ok x) :
    decodeList dec (encodeOptList enc a) = .ok a := by
  cases a with
  | none => rfl
  | some l =>
    simp only [encodeOptList, decodeList]
    rw [mapM_encode_roundtrip dec enc l (h l rfl)]
    rfl

lemma decodeList_str_roundtrip (a : Option (List String)) :
    decodeList decodeString (encodeOptList GoValue.str a) = .ok a :=
  decodeList_encodeOptList a (fun _ _ _ _ => rfl)

lemma decodeInt_intCast (i : Int) : decodeInt (.num (i : Rat)) = .ok i := by
  simp [decodeInt, Rat.den_intCast, Rat.num_intCast]

lemma decode_encode_GoogleLocation (x : GoogleLocation) :
    decodeGoogleLocation (encodeGoogleLocation x) = .ok x := by
  obtain ⟨lat, lng⟩ := x
  simp [encodeGoogleLocation, decodeGoogleLocation, decodeField, lookupLast, decodeFloat,
    bind, Except.bind]

lemma decode_encode_GoogleViewport (x : GoogleViewport) :
    decodeGoogleViewport (encodeGoogleViewport x) = .ok x := by
  obtain ⟨ne, sw⟩ := x
  simp [encodeGoogleViewport, decodeGoogleViewport, decodeField, lookupLast,
    decode_encode_GoogleLocation, bind, Except.bind]

lemma decode_encode_GoogleGeometry (x : GoogleGeometry) :
    decodeGoogleGeometry (encodeGoogleGeometry x) = .ok x := by
  obtain ⟨loc, lt, vp⟩ := x
  by_cases h : lt = "" <;>
    simp [encodeGoogleGeometry, decodeGoogleGeometry, decodeField, lookupLast, decodeString,
      decode_encode_GoogleLocation, decode_encode_GoogleViewport, h, bind, Except.bind]

lemma decode_encode_GooglePlusCode (x : GooglePlusCode) :
    decodeGooglePlusCode (encodeGooglePlusCode x) = .ok x := by
  obtain ⟨cc, gc⟩ := x
  simp [encodeGooglePlusCode, decodeGooglePlusCode, decodeField, lookupLast, decodeString,
    bind, Except.bind]

lemma decode_encode_Photo (x : Photo) :
    decodePhoto (encodePhoto x) = .ok x := by
  obtain ⟨h, ha, pr, w⟩ := x
  simp [encodePhoto, decodePhoto, decodeField, lookupLast, decodeString, decodeInt_intCast,
    decodeList_str_roundtrip, bind, Except.bind]

lemma decode_encode_OpeningHour (x : OpeningHour) :
    decodeOpeningHour (encodeOpeningHour x) = .ok x := by
  obtain ⟨op⟩ := x
  simp [encodeOpeningHour, decodeOpeningHour, decodeField, lookupLast, decodeBool,
    bind, Except.bind]

lemma decodeList_photo_roundtrip (a : Option (List Photo)) :
    decodeList decodePhoto (encodeOptList encodePhoto a) = .ok a :=
  decodeList_encodeOptList a (fun _ _ x _ => decode_encode_Photo x)

lemma decode_encode_NearbyResult (x : NearbyResult) :
    decodeNearbyResult (encodeNearbyResult x) = .ok x := by
  obtain ⟨g, ic, i, n, oh, ph, pid, pc, pl, r, rf, sc, ts, ur, vc⟩ := x
  by_cases h : pl = 0 <;>
    simp [encodeNearbyResult, decodeNearbyResult, decodeField, lookupLast, decodeString,
      decodeFloat, decodeInt_intCast, decodeList_str_roundtrip, decodeList_photo_roundtrip,
      decode_encode_GoogleGeometry, decode_encode_OpeningHour, decode_encode_GooglePlusCode,
      h, bind, Except.bind]

lemma decodeList_nearbyResult_roundtrip (a : Option (List NearbyResult)) :
    decodeList decodeNearbyResult (encodeOptList encodeNearbyResult a) = .ok a :=
  decodeList_encodeOptList a (fun _ _ x _ => decode_encode_NearbyResult x)

/-- Every `interface{}` datum held in the decoded response is in canonical
(decoded-map) form; true of every decode result, and exactly the condition
under which marshalling is inverted by decoding. -/
def CanonicalAttrs (r : GoogleNearbySearchResponse) : Prop :=
  ∀ l, r.htmlAttributions = some l → ∀ x ∈ l, x.canon = x

lemma decodeList_iface_roundtrip (a : Option (List GoValue))
    (h : ∀ l, a = some l → ∀ x ∈ l, x.canon = x) :
    decodeList decodeIface (encodeOptList id a) = .ok a :=
  decodeList_encodeOptList a (fun l hl x hx => by simp [decodeIface, h l hl x hx])

lemma decode_encode_GoogleNearbySearchResponse {x : GoogleNearbySearchResponse}
    (hc : CanonicalAttrs x) :
    decodeGoogleNearbySearchResponse (encodeGoogleNearbySearchResponse x) = .ok x := by
  obtain ⟨ha, rs, st⟩ := x
  have hattrs := decodeList_iface_roundtrip ha (fun l hl => hc l hl)
  simp [encodeGoogleNearbySearchResponse, decodeGoogleNearbySearchResponse, decodeField,
    lookupLast, decodeString, decodeList_nearbyResult_roundtrip, hattrs, bind, Except.bind]

lemma mapM_decodeIface (xs : List GoValue) :
    xs.mapM decodeIface = .ok (xs.map GoValue.canon) := by
  induction xs with
  | nil => rfl
  | cons x xs ih =>
    simp only [List.mapM_cons, List.map_cons, decodeIface, ih, bind, Except.bind,
      pure, Except.pure]

lemma decodeField_iface_canonical {fs : List (String × GoValue)} {k : String}
    {a : Option (List GoValue)}
    (h : decodeField fs k (decodeList decodeIface) none = .ok a) :
    ∀ l, a = some l → ∀ x ∈ l, x.canon = x := by
  rw [decodeField] at h
  cases hl : lookupLast fs k with
  | none =>
    rw [hl] at h
    cases h
    intro l hl'
    cases hl'
  | some w =>
    rw [hl] at h
    cases w with
    | null =>
      cases h
      intro l hl'
      cases hl'
    | arr xs =>
      simp only [decodeList, mapM_decodeIface, Except.map] at h
      cases h
      intro l hl'
      cases hl'
      intro x hx
      simp only [List.mem_map] at hx
      obtain ⟨y, _, hy⟩ := hx
      subst hy
      exact GoValue.canon_idem y
    | bool b => simp [decodeList] at h
    | num q => simp [decodeList] at h
    | str s => simp [decodeList] at h
    | obj fs' => simp [decodeList] at h

/-- Any successful decode yields a response whose `interface{}` data is
canonical. -/
lemma decode_canonicalAttrs {p : GoValue} {v : GoogleNearbySearchResponse}
    (h : decodeGoogleNearbySearchResponse p = .ok v) : CanonicalAttrs v := by
  cases p with
  | null =>
    simp only [decodeGoogleNearbySearchResponse] at h
    cases h
    intro l hl
    cases hl
  | obj fs =>
    simp only [decodeGoogleNearbySearchResponse] at h
    cases hha : decodeField fs "html_attributions" (decodeList decodeIface) none with
    | error e => rw [hha] at h; simp [bind, Except.bind] at h
    | ok a =>
      rw [hha] at h
      cases hrs : decodeField fs "results" (decodeList decodeNearbyResult) none with
      | error e => rw [hrs] at h; simp [bind, Except.bind] at h
      | ok rs =>
        rw [hrs] at h
        cases hst : decodeField fs "status" decodeString "" with
        | error e => rw [hst] at h; simp [bind, Except.bind] at h
        | ok st =>
          rw [hst] at h
          simp only [bind, Except.bind] at h
          cases h
          intro l hl
          exact decodeField_iface_canonical hha l hl
  | bool b => simp [decodeGoogleNearbySearchResponse] at h
  | num q => simp [decodeGoogleNearbySearchResponse] at h
  | str s => simp [decodeGoogleNearbySearchResponse] at h
  | arr xs => simp [decodeGoogleNearbySearchResponse] at h

end geomap

/-! Serialization of a `GoValue` to text, modelling `json.Marshal` output:
compact separators, strings quoted with Go's escaping (HTML-unsafe
characters escaped).  The textual rendering of a non-integral number
stands below this model's abstraction level (Go prints the shortest
decimal form of the float64); integral numbers print their integer part. -/

def jsonHexDigit (n : Nat) : Char :=
  if n < 10 then Char.ofNat (48 + n) else Char.ofNat (87 + n)

def jsonEscapeChar (c : Char) : List Char :=
  if c = '"' then ['\\', '"']
  else if c = '\\' then ['\\', '\\']
  else if c = '\n' then ['\\', 'n']
  else if c = '\r' then ['\\', 'r']
  else if c = '\t' then ['\\', 't']
  else if c.toNat < 32 || c = '<' || c = '>' || c = '&' then
    ['\\', 'u', '0', '0', jsonHexDigit (c.toNat / 16 % 16), jsonHexDigit (c.toNat % 16)]
  else if c.toNat = 8232 then ['\\', 'u', '2', '0', '2', '8']
  else if c.toNat = 8233 then ['\\', 'u', '2', '0', '2', '9']
  else [c]

def jsonQuote (s : String) : String :=
  "\"" ++ String.mk (s.data.map jsonEscapeChar).flatten ++ "\""

def printRat (q : Rat) : String :=
  if q.den = 1 then toString q.num else toString q

def printGoValue : GoValue → String
  | .null => "null"
  | .bool b => if b then "true" else "false"
  | .num q => printRat q
  | .str s => jsonQuote s
  | .arr xs =>
    "[" ++ String.intercalate "," (xs.attach.map (fun x => printGoValue x.1)) ++ "]"
  | .obj fs =>
    "\x7b" ++ String.intercalate ","
      (fs.attach.map (fun p => jsonQuote p.1.1 ++ ":" ++ printGoValue p.1.2)) ++ "\x7d"
decreasing_by
  · have h1 := List.sizeOf_lt_of_mem x.2
    simp only [GoValue.arr.sizeOf_spec]
    omega
  · have h1 := List.sizeOf_lt_of_mem p.2
    have h2 : sizeOf p.1.2 < sizeOf p.1 := by
      obtain ⟨a, b⟩ := p.1
      simp only [Prod.mk.sizeOf_spec]
      omega
    simp only [GoValue.obj.sizeOf_spec]
    omega

/-- `json.Marshal` of the nearby-search response: the serialized text and
the error, which is always absent for this type (its values hold no
unmarshalable data). -/
def jsonMarshal (x : geomap.GoogleNearbySearchResponse) : String × Option GoError :=
  (printGoValue (geomap.encodeGoogleNearbySearchResponse x), none)

/-! The URL query machinery of `net/url` used by the clients:
`req.URL.Query()` returns empty `url.Values` (the endpoint constants carry
no query), `Values.Add` appends a value under a key, and `Values.Encode`
emits `k=v` pairs sorted by key, percent-escaped. -/

def urlHexDigit (n : Nat) : Char :=
  if n < 10 then Char.ofNat (48 + n) else Char.ofNat (55 + n)

/-- The UTF-8 bytes of a character, as plain naturals. -/
def utf8Bytes (c : Char) : List Nat :=
  let n := c.toNat
  if n < 128 then [n]
  else if n < 2048 then [192 + n / 64, 128 + n % 64]
  else if n < 65536 then [224 + n / 4096, 128 + n / 64 % 64, 128 + n % 64]
  else [240 + n / 262144, 128 + n / 4096 % 64, 128 + n / 64 % 64, 128 + n % 64]

def percentByte (b : Nat) : List Char :=
  ['%', urlHexDigit (b / 16), urlHexDigit (b % 16)]

/-- `url.QueryEscape`: keep unreserved characters, encode a space as `+`,
percent-encode every other byte. -/
def queryEscape (s : String) : String :=
  String.mk (s.data.map (fun c =>
    if c = ' ' then ['+']
    else if c.isAlphanum || c = '-' || c = '_' || c = '.' || c = '~' then [c]
    else ((utf8Bytes c).map percentByte).flatten)).flatten

/-- `url.Values.Add`: append a value to the list held under a key. -/
def valuesAdd : List (String × List String) → String → String → List (String × List String)
  | [], k, v => [(k, [v])]
  | (k', vs) :: rest, k, v =>
    if k' = k then (k', vs ++ [v]) :: rest else (k', vs) :: valuesAdd rest k v

/-- The `for key, val := range params { q.Add(key, val) }` loop, started
from the empty `url.Values` of the bare endpoint URL. -/
def valuesOfParams (params : List (String × String)) : List (String × List String) :=
  params.foldl (fun acc p => valuesAdd acc p.1 p.2) []

def insertSortedByKey (p : String × List String) :
    List (String × List String) → List (String × List String)
  | [] => [p]
  | q :: rest => if p.1 < q.1 then p :: q :: rest else q :: insertSortedByKey p rest

def sortValuesByKey (l : List (String × List String)) : List (String × List String) :=
  l.foldr insertSortedByKey []

/-- The key/value pairs `Values.Encode` writes out, in output order:
keys sorted, each key's values in insertion order. -/
def valuesEncodePairs (vs : List (String × List String)) : List (String × String) :=
  ((sortValuesByKey vs).map (fun p => p.2.map (fun v => (p.1, v)))).flatten

/-- `url.Values.Encode`: the raw query string. -/
def valuesEncode (vs : List (String × List String)) : String :=
  String.intercalate "&"
    ((valuesEncodePairs vs).map (fun p => queryEscape p.1 ++ "=" ++ queryEscape p.2))

/-- The outbound GET request as built by each client: target URL, the
query pairs its encoded query carries (in output order), and the raw
query string assigned to `req.URL.RawQuery`. -/
structure GetRequest where
  url : String
  queryPairs : List (String × String)
  rawQuery : String
deriving Repr, DecidableEq

def buildRequest (reqURL : String) (params : List (String × String)) : GetRequest :=
  let q := valuesOfParams params
  ⟨reqURL, valuesEncodePairs q, valuesEncode q⟩

/-! The environment one outbound call runs against.  `http.NewRequest`,
`client.Do`, the upstream status and body bytes, and whether those bytes
parse, are all external to the program; an `Upstream` value fixes one
joint outcome for them. -/

/-- Outcome of reading and parsing the response body. -/
inductive BodyResult where
  | readError (e : GoError) : BodyResult
  | malformed (e : GoError) : BodyResult
  | parsed (j : GoValue) : BodyResult
deriving Repr

/-- Joint outcome of the external steps of one outbound call. -/
inductive Upstream where
  | reqError (e : GoError) : Upstream
  | transportError (e : GoError) : Upstream
  | response (statusCode : Nat) (body : BodyResult) : Upstream
deriving Repr

/-- Observable side effects of one client invocation: how many times
`client.Do` ran, the request it was given, and whether `resp.Body.Close`
ran before returning. -/
structure CallTrace where
  networkCalls : Nat
  sentRequest : Option GetRequest
  bodyClosed : Bool
deriving Repr

namespace geomap

/-- Generic form of the outbound call primitive shared by the three
clients, parameterized by target URL, decoder and zero value: build the
GET request, attach the encoded query, execute, require status 200, read
the body, JSON-decode it.  Note the `defer resp.Body.Close()` in the
source is registered only after the status check, so the body is closed
only on the paths that read it. -/
def apiGet {α : Type} (reqURL : String) (dec : GoValue → Except GoError α) (zero : α)
    (params : List (String × String)) (u : Upstream) : (α × Option GoError) × CallTrace :=
  match u with
  | .reqError e => ((zero, some e), ⟨0, none, false⟩)
  | .transportError e => ((zero, some e), ⟨1, some (buildRequest reqURL params), false⟩)
  | .response status body =>
    let req := buildRequest reqURL params
    if status ≠ 200 then
      ((zero, some ⟨"Status not OK"⟩), ⟨1, some req, false⟩)
    else
      match body with
      | .readError e => ((zero, some e), ⟨1, some req, true⟩)
      | .malformed e => ((zero, some e), ⟨1, some req, true⟩)
      | .parsed j =>
        match dec j with
        | .error e => ((zero, some e), ⟨1, some req, true⟩)
        | .ok v => ((v, none), ⟨1, some req, true⟩)

/-- `geomap.GetGeocode` (the `ctx` argument is unused by the source body
and omitted).  Transliterated from the source; see `apiGet` for the shared
shape. -/
def GetGeocode (params : List (String × String)) (u : Upstream) :
    (GoogleGeocodeResponse × Option GoError) × CallTrace :=
  let reqURL := "https://maps.googleapis.com/maps/api/geocode/json"
  match u with
  | .reqError e => ((GoogleGeocodeResponse.zero, some e), ⟨0, none, false⟩)
  | .transportError e =>
    ((GoogleGeocodeResponse.zero, some e), ⟨1, some (buildRequest reqURL params), false⟩)
  | .response status body =>
    let req := buildRequest reqURL params
    if status ≠ 200 then
      ((GoogleGeocodeResponse.zero, some ⟨"Status not OK"⟩), ⟨1, some req, false⟩)
    else
      match body with
      | .readError e => ((GoogleGeocodeResponse.zero, some e), ⟨1, some req, true⟩)
      | .malformed e => ((GoogleGeocodeResponse.zero, some e), ⟨1, some req, true⟩)
      | .parsed j =>
        match decodeGoogleGeocodeResponse j with
        | .error e => ((GoogleGeocodeResponse.zero, some e), ⟨1, some req, true⟩)
        | .ok v => ((v, none), ⟨1, some req, true⟩)

/-- `geomap.FindPlace`, transliterated from the source. -/
def FindPlace (params : List (String × String)) (u : Upstream) :
    (GooglePlaceSearchResponse × Option GoError) × CallTrace :=
  let reqURL := "https://maps.googleapis.com/maps/api/place/findplacefromtext/json"
  match u with
  | .reqError e => ((GooglePlaceSearchResponse.zero, some e), ⟨0, none, false⟩)
  | .transportError e =>
    ((GooglePlaceSearchResponse.zero, some e), ⟨1, some (buildRequest reqURL params), false⟩)
  | .response status body =>
    let req := buildRequest reqURL params
    if status ≠ 200 then
      ((GooglePlaceSearchResponse.zero, some ⟨"Status not OK"⟩), ⟨1, some req, false⟩)
    else
      match body with
      | .readError e => ((GooglePlaceSearchResponse.zero, some e), ⟨1, some req, true⟩)
      | .malformed e => ((GooglePlaceSearchResponse.zero, some e), ⟨1, some req, true⟩)
      | .parsed j =>
        match decodeGooglePlaceSearchResponse j with
        | .error e => ((GooglePlaceSearchResponse.zero, some e), ⟨1, some req, true⟩)
        | .ok v => ((v, none), ⟨1, some req, true⟩)

/-- `geomap.PlaceNearby`, transliterated from the source. -/
def PlaceNearby (params : List (String × String)) (u : Upstream) :
    (GoogleNearbySearchResponse × Option GoError) × CallTrace :=
  let reqURL := "https://maps.googleapis.com/maps/api/place/nearbysearch/json"
  match u with
  | .reqError e => ((GoogleNearbySearchResponse.zero, some e), ⟨0, none, false⟩)
  | .transportError e =>
    ((GoogleNearbySearchResponse.zero, some e), ⟨1, some (buildRequest reqURL params), false⟩)
  | .response status body =>
    let req := buildRequest reqURL params
    if status ≠ 200 then
      ((GoogleNearbySearchResponse.zero, some ⟨"Status not OK"⟩), ⟨1, some req, false⟩)
    else
      match body with
      | .readError e => ((GoogleNearbySearchResponse.zero, some e), ⟨1, some req, true⟩)
      | .malformed e => ((GoogleNearbySearchResponse.zero, some e), ⟨1, some req, true⟩)
      | .parsed j =>
        match decodeGoogleNearbySearchResponse j with
        | .error e => ((GoogleNearbySearchResponse.zero, some e), ⟨1, some req, true⟩)
        | .ok v => ((v, none), ⟨1, some req, true⟩)

end geomap

/-! The `getnearbylocation` Lambda adapter (`package main`). -/

/-- Go map read `m[k]`: a missing key yields the zero value `""`. -/
def mapGet (m : List (String × String)) (k : String) : String :=
  (m.lookup k).getD ""

/-- Go map write `m[k] = v`. -/
def mapInsert (m : List (String × String)) (k v : String) : List (String × String) :=
  if m.any (fun p => p.1 = k) then m.map (fun p => if p.1 = k then (k, v) else p)
  else m ++ [(k, v)]

/-- Inbound AWS API-gateway proxy request (the part the Handler reads). -/
structure APIGatewayProxyRequest where
  queryStringParameters : List (String × String)
deriving Repr, DecidableEq

/-- Outbound AWS API-gateway proxy response (the part the Handler sets). -/
structure APIGatewayProxyResponse where
  body : String
  statusCode : Nat
deriving Repr, DecidableEq

/-- The literal access key the Handler copies into the mapping. -/
def apiKey : String := "API KEY HERE"

/-- The outbound parameter mapping the Handler builds (source lines
25-41): `location`, `radius`, `key` always; `name` only when non-empty. -/
def geoParams (request : APIGatewayProxyRequest) : List (String × String) :=
  let location := mapGet request.queryStringParameters "location"
  let radius := mapGet request.queryStringParameters "radius"
  let name := mapGet request.queryStringParameters "name"
  let base := [("location", location), ("radius", radius), ("key", apiKey)]
  if name ≠ "" then mapInsert base "name" name else base

/-- The Lambda handler: builds the mapping, dispatches `PlaceNearby`, and
shapes the proxy response; on failure `("Error", 400)` plus the error, on
success the marshalled body with 200 (the marshal error is discarded). -/
def Handler (request : APIGatewayProxyRequest) (u : Upstream) :
    (APIGatewayProxyResponse × Option GoError) × CallTrace :=
  let res := geomap.PlaceNearby (geoParams request) u
  let googleResp := res.1.1
  let err := res.1.2
  match err with
  | some e => ((⟨"Error", 400⟩, some e), res.2)
  | none => ((⟨(jsonMarshal googleResp).1, 200⟩, none), res.2)

/-! Helper lemmas: per-outcome evaluation of the clients and the Handler. -/

/-- The fixed geocode endpoint. -/
def geocodeURL : String := "https://maps.googleapis.com/maps/api/geocode/json"

/-- The fixed find-place endpoint. -/
def findPlaceURL : String := "https://maps.googleapis.com/maps/api/place/findplacefromtext/json"

/-- The fixed nearby-search endpoint. -/
def nearbyURL : String := "https://maps.googleapis.com/maps/api/place/nearbysearch/json"

namespace geomap

lemma placeNearby_reqError (params : List (String × String)) (e : GoError) :
    PlaceNearby params (.reqError e) =
      ((GoogleNearbySearchResponse.zero, some e), ⟨0, none, false⟩) := rfl

lemma placeNearby_transportError (params : List (String × String)) (e : GoError) :
    PlaceNearby params (.transportError e) =
      ((GoogleNearbySearchResponse.zero, some e),
       ⟨1, some (buildRequest nearbyURL params), false⟩) := rfl

lemma placeNearby_not200 {s : Nat} (params : List (String × String)) (b : BodyResult)
    (h : s ≠ 200) :
    PlaceNearby params (.response s b) =
      ((GoogleNearbySearchResponse.zero, some ⟨"Status not OK"⟩),
       ⟨1, some (buildRequest nearbyURL params), false⟩) := by
  simp [PlaceNearby, h, nearbyURL]

lemma placeNearby_readError (params : List (String × String)) (e : GoError) :
    PlaceNearby params (.response 200 (.readError e)) =
      ((GoogleNearbySearchResponse.zero, some e),
       ⟨1, some (buildRequest nearbyURL params), true⟩) := rfl

lemma placeNearby_malformed (params : List (String × String)) (e : GoError) :
    PlaceNearby params (.response 200 (.malformed e)) =
      ((GoogleNearbySearchResponse.zero, some e),
       ⟨1, some (buildRequest nearbyURL params), true⟩) := rfl

lemma placeNearby_decodeError {j : GoValue} {e : GoError} (params : List (String × String))
    (h : decodeGoogleNearbySearchResponse j = .error e) :
    PlaceNearby params (.response 200 (.parsed j)) =
      ((GoogleNearbySearchResponse.zero, some e),
       ⟨1, some (buildRequest nearbyURL params), true⟩) := by
  simp [PlaceNearby, h, nearbyURL]

lemma placeNearby_decodeOk {j : GoValue} {v : GoogleNearbySearchResponse}
    (params : List (String × String))
    (h : decodeGoogleNearbySearchResponse j = .ok v) :
    PlaceNearby params (.response 200 (.parsed j)) =
      ((v, none), ⟨1, some (buildRequest nearbyURL params), true⟩) := by
  simp [PlaceNearby, h, nearbyURL]

end geomap

lemma handler_error {request : APIGatewayProxyRequest} {u : Upstream} {e : GoError}
    (h : (geomap.PlaceNearby (geoParams request) u).1.2 = some e) :
    Handler request u =
      ((⟨"Error", 400⟩, some e), (geomap.PlaceNearby (geoParams request) u).2) := by
  simp only [Handler]
  rw [h]

lemma handler_ok {request : APIGatewayProxyRequest} {u : Upstream}
    (h : (geomap.PlaceNearby (geoParams request) u).1.2 = none) :
    Handler request u =
      ((⟨(jsonMarshal (geomap.PlaceNearby (geoParams request) u).1.1).1, 200⟩, none),
       (geomap.PlaceNearby (geoParams request) u).2) := by
  simp only [Handler]
  rw [h]

lemma handler_trace (request : APIGatewayProxyRequest) (u : Upstream) :
    (Handler request u).2 = (geomap.PlaceNearby (geoParams request) u).2 := by
  simp only [Handler]
  cases (geomap.PlaceNearby (geoParams request) u).1.2 <;> rfl

/-! Helper lemmas for the query-pair permutation (claim C5). -/

lemma valuesAdd_fresh {k : String} (v : String) :
    ∀ {acc : List (String × List String)}, (∀ p ∈ acc, p.1 ≠ k) →
    valuesAdd acc k v = acc ++ [(k, [v])] := by
  intro acc
  induction acc with
  | nil => intro _; rfl
  | cons q rest ih =>
    intro h
    obtain ⟨k', vs⟩ := q
    have hk : k' ≠ k := h (k', vs) (List.mem_cons_self _ _)
    simp only [valuesAdd, if_neg hk, List.cons_append, List.cons.injEq, true_and]
    exact ih (fun p hp => h p (List.mem_cons_of_mem _ hp))

lemma valuesOfParams_nodup : ∀ (params : List (String × String))
    (acc : List (String × List String)),
    (params.map Prod.fst).Nodup →
    (∀ p ∈ acc, p.1 ∉ params.map Prod.fst) →
    params.foldl (fun acc p => valuesAdd acc p.1 p.2) acc =
      acc ++ params.map (fun p => (p.1, [p.2])) := by
  intro params
  induction params with
  | nil =>
    intro acc _ _
    simp
  | cons q rest ih =>
    intro acc hnd hdisj
    simp only [List.map_cons, List.nodup_cons] at hnd
    obtain ⟨hq, hrest⟩ := hnd
    simp only [List.foldl_cons]
    rw [valuesAdd_fresh q.2
      (fun p hp => fun hh => hdisj p hp (by simp [hh]))]
    rw [ih (acc ++ [(q.1, [q.2])]) hrest ?_]
    · simp
    · intro p hp
      rcases List.mem_append.mp hp with hp' | hp'
      · exact fun hmem => hdisj p hp' (List.mem_cons_of_mem _ hmem)
      · simp only [List.mem_singleton] at hp'
        subst hp'
        simpa using hq

lemma insertSortedByKey_perm (p : String × List String) :
    ∀ l, List.Perm (insertSortedByKey p l) (p :: l) := by
  intro l
  induction l with
  | nil => rfl
  | cons q rest ih =>
    simp only [insertSortedByKey]
    split
    · rfl
    · exact List.Perm.trans (List.Perm.cons q ih) (List.Perm.swap p q rest)

lemma sortValuesByKey_perm (l : List (String × List String)) :
    List.Perm (sortValuesByKey l) l := by
  induction l with
  | nil => rfl
  | cons q rest ih =>
    simp only [sortValuesByKey, List.foldr_cons]
    exact List.Perm.trans (insertSortedByKey_perm q _) (List.Perm.cons q ih)

lemma flatten_map_pair :
    ∀ l : List (String × String), (l.map (fun p => [(p.1, p.2)])).flatten = l := by
  intro l
  induction l with
  | nil => rfl
  | cons x xs ih => simp [ih]

lemma buildRequest_perm {params : List (String × String)}
    (hnd : (params.map Prod.fst).Nodup) (reqURL : String) :
    List.Perm (buildRequest reqURL params).queryPairs params := by
  have hvals : valuesOfParams params = params.map (fun p => (p.1, [p.2])) := by
    have := valuesOfParams_nodup params [] hnd (by simp)
    simpa [valuesOfParams] using this
  simp only [buildRequest, valuesEncodePairs, hvals]
  have hsort := (sortValuesByKey_perm (params.map (fun p => (p.1, [p.2])))).map
    (fun p => p.2.map (fun v => (p.1, v)))
  have hflat := hsort.flatten
  refine hflat.trans ?_
  rw [List.map_map]
  have : (params.map ((fun (p : String × List String) =>
      p.2.map (fun v => (p.1, v))) ∘ (fun p => (p.1, [p.2])))) =
      params.map (fun p => [(p.1, p.2)]) := by
    simp [Function.comp]
  rw [this, flatten_map_pair]

/-! Helper lemmas about the Handler's parameter mapping. -/

lemma geoParams_eq (request : APIGatewayProxyRequest) :
    geoParams request =
      if mapGet request.queryStringParameters "name" ≠ "" then
        [("location", mapGet request.queryStringParameters "location"),
         ("radius", mapGet request.queryStringParameters "radius"),
         ("key", apiKey),
         ("name", mapGet request.queryStringParameters "name")]
      else
        [("location", mapGet request.queryStringParameters "location"),
         ("radius", mapGet request.queryStringParameters "radius"),
         ("key", apiKey)] := by
  by_cases hn : mapGet request.queryStringParameters "name" = "" <;>
    simp [geoParams, hn, mapInsert]

lemma geoParams_lookup_location (request : APIGatewayProxyRequest) :
    (geoParams request).lookup "location" =
      some (mapGet request.queryStringParameters "location") := by
  rw [geoParams_eq]
  by_cases hn : mapGet request.queryStringParameters "name" = "" <;>
    simp [hn, List.lookup]

lemma geoParams_lookup_radius (request : APIGatewayProxyRequest) :
    (geoParams request).lookup "radius" =
      some (mapGet request.queryStringParameters "radius") := by
  rw [geoParams_eq]
  by_cases hn : mapGet request.queryStringParameters "name" = "" <;>
    simp [hn, List.lookup]

lemma geoParams_lookup_key (request : APIGatewayProxyRequest) :
    (geoParams request).lookup "key" = some apiKey := by
  rw [geoParams_eq]
  by_cases hn : mapGet request.queryStringParameters "name" = "" <;>
    simp [hn, List.lookup]

lemma geoParams_lookup_name (request : APIGatewayProxyRequest) :
    (geoParams request).lookup "name" =
      if mapGet request.queryStringParameters "name" = "" then none
      else some (mapGet request.queryStringParameters "name") := by
  rw [geoParams_eq]
  by_cases hn : mapGet request.queryStringParameters "name" = "" <;>
    simp [hn, List.lookup]

/-! The claims. -/

/-- C1: For every inbound request, the Handler builds the outbound
parameter mapping by copying the inbound `location` and `radius` values
and the access key under the keys "location", "radius", "key", and adds a
"name" key mapped to the inbound `name` value if and only if that value is
non-empty. -/
theorem C1_handler_param_mapping (request : APIGatewayProxyRequest) :
    (geoParams request).lookup "location" =
      some (mapGet request.queryStringParameters "location") ∧
    (geoParams request).lookup "radius" =
      some (mapGet request.queryStringParameters "radius") ∧
    (geoParams request).lookup "key" = some apiKey ∧
    (mapGet request.queryStringParameters "name" = "" →
      (geoParams request).lookup "name" = none) ∧
    (mapGet request.queryStringParameters "name" ≠ "" →
      (geoParams request).lookup "name" =
        some (mapGet request.queryStringParameters "name")) := by
  refine ⟨geoParams_lookup_location request, geoParams_lookup_radius request,
    geoParams_lookup_key request, ?_, ?_⟩
  · intro h
    rw [geoParams_lookup_name, if_pos h]
  · intro h
    rw [geoParams_lookup_name, if_neg h]

/-- Witness for C1 at the two particular inputs the claim names:
`name="coffee"` is copied, `name` absent (hence `""`) is filtered out. -/
theorem C1_handler_param_mapping_witness :
    (mapGet [("location", "1,2"), ("radius", "500"), ("name", "coffee")] "name" ≠ "" ∧
     (geoParams ⟨[("location", "1,2"), ("radius", "500"), ("name", "coffee")]⟩).lookup "name" =
       some "coffee") ∧
    (mapGet [("location", "1,2"), ("radius", "500")] "name" = "" ∧
     (geoParams ⟨[("location", "1,2"), ("radius", "500")]⟩).lookup "name" = none) :=
  ⟨⟨by decide, (C1_handler_param_mapping ⟨[("location", "1,2"), ("radius", "500"),
      ("name", "coffee")]⟩).2.2.2.2 (by decide)⟩,
   ⟨rfl, (C1_handler_param_mapping ⟨[("location", "1,2"), ("radius", "500")]⟩).2.2.2.1 rfl⟩⟩

/-- C9 (implicit): the Handler performs no validation of the required
inbound parameters: an absent `location` or `radius` still puts the key,
bound to `""`, into the outbound mapping, and the outbound call is
dispatched (one network call whenever the environment lets `client.Do`
run) — the adapter never rejects a request before dispatch. -/
theorem C9_no_validation (request : APIGatewayProxyRequest) :
    (request.queryStringParameters.lookup "location" = none →
      (geoParams request).lookup "location" = some "") ∧
    (request.queryStringParameters.lookup "radius" = none →
      (geoParams request).lookup "radius" = some "") ∧
    (∀ s b, (Handler request (.response s b)).2.networkCalls = 1) ∧
    (∀ e, (Handler request (.transportError e)).2.networkCalls = 1) := by
  refine ⟨?_, ?_, ?_, ?_⟩
  · intro h
    rw [geoParams_lookup_location]
    simp [mapGet, h]
  · intro h
    rw [geoParams_lookup_radius]
    simp [mapGet, h]
  · intro s b
    rw [handler_trace]
    by_cases hs : s = 200
    · subst hs
      cases b with
      | readError e => rw [geomap.placeNearby_readError]
      | malformed e => rw [geomap.placeNearby_malformed]
      | parsed j =>
        cases hd : geomap.decodeGoogleNearbySearchResponse j with
        | error e => rw [geomap.placeNearby_decodeError _ hd]
        | ok v => rw [geomap.placeNearby_decodeOk _ hd]
    · rw [geomap.placeNearby_not200 _ _ hs]
  · intro e
    rw [handler_trace, geomap.placeNearby_transportError]

/-- Witness for C9: a request with neither `location` nor `radius` still
maps `location` to `""` and still results in a dispatched call. -/
theorem C9_no_validation_witness :
    ((⟨[("name", "x")]⟩ : APIGatewayProxyRequest).queryStringParameters.lookup "location" =
      none) ∧
    (geoParams ⟨[("name", "x")]⟩).lookup "location" = some "" ∧
    (Handler ⟨[("name", "x")]⟩ (.response 500 (.parsed .null))).2.networkCalls = 1 :=
  ⟨rfl, (C9_no_validation ⟨[("name", "x")]⟩).1 rfl,
   (C9_no_validation ⟨[("name", "x")]⟩).2.2.1 500 (.parsed .null)⟩

/-- C2: `PlaceNearby` returns a decoded structure with no error iff the
upstream status is exactly 200 and the body decodes cleanly into the
schema; any non-200 status yields the generic constant "Status not OK"
error (independent of the actual status and body); transport, body-read
and JSON-decode failures each surface the underlying error as-is; and no
retry happens (at most one network call). -/
theorem C2_placeNearby_contract (params : List (String × String)) (u : Upstream) :
    ((geomap.PlaceNearby params u).1.2 = none ↔
      ∃ j v, u = .response 200 (.parsed j) ∧
        geomap.decodeGoogleNearbySearchResponse j = .ok v) ∧
    (∀ j v, u = .response 200 (.parsed j) →
      geomap.decodeGoogleNearbySearchResponse j = .ok v →
      (geomap.PlaceNearby params u).1 = (v, none)) ∧
    (∀ s b, u = .response s b → s ≠ 200 →
      (geomap.PlaceNearby params u).1.2 = some ⟨"Status not OK"⟩) ∧
    (∀ e, u = .transportError e → (geomap.PlaceNearby params u).1.2 = some e) ∧
    (∀ e, u = .response 200 (.readError e) →
      (geomap.PlaceNearby params u).1.2 = some e) ∧
    (∀ e, u = .response 200 (.malformed e) →
      (geomap.PlaceNearby params u).1.2 = some e) ∧
    (∀ j e, u = .response 200 (.parsed j) →
      geomap.decodeGoogleNearbySearchResponse j = .error e →
      (geomap.PlaceNearby params u).1.2 = some e) ∧
    (geomap.PlaceNearby params u).2.networkCalls ≤ 1 := by
  refine ⟨⟨?_, ?_⟩, ?_, ?_, ?_, ?_, ?_, ?_, ?_⟩
  · intro h
    cases u with
    | reqError e => rw [geomap.placeNearby_reqError] at h; simp at h
    | transportError e => rw [geomap.placeNearby_transportError] at h; simp at h
    | response s b =>
      by_cases hs : s = 200
      · subst hs
        cases b with
        | readError e => rw [geomap.placeNearby_readError] at h; simp at h
        | malformed e => rw [geomap.placeNearby_malformed] at h; simp at h
        | parsed j =>
          cases hd : geomap.decodeGoogleNearbySearchResponse j with
          | error e => rw [geomap.placeNearby_decodeError params hd] at h; simp at h
          | ok v => exact ⟨j, v, rfl, hd⟩
      · rw [geomap.placeNearby_not200 params b hs] at h; simp at h
  · rintro ⟨j, v, rfl, hd⟩
    rw [geomap.placeNearby_decodeOk params hd]
  · rintro j v rfl hd
    rw [geomap.placeNearby_decodeOk params hd]
  · rintro s b rfl hs
    rw [geomap.placeNearby_not200 params b hs]
  · rintro e rfl
    rw [geomap.placeNearby_transportError]
  · rintro e rfl
    rw [geomap.placeNearby_readError]
  · rintro e rfl
    rw [geomap.placeNearby_malformed]
  · rintro j e rfl hd
    rw [geomap.placeNearby_decodeError params hd]
  · cases u with
    | reqError e => rw [geomap.placeNearby_reqError]; exact Nat.zero_le 1
    | transportError e => rw [geomap.placeNearby_transportError]
    | response s b =>
      by_cases hs : s = 200
      · subst hs
        cases b with
        | readError e => rw [geomap.placeNearby_readError]
        | malformed e => rw [geomap.placeNearby_malformed]
        | parsed j =>
          cases hd : geomap.decodeGoogleNearbySearchResponse j with
          | error e => rw [geomap.placeNearby_decodeError params hd]
          | ok v => rw [geomap.placeNearby_decodeOk params hd]
      · rw [geomap.placeNearby_not200 params b hs]

/-- Witness for C2: an upstream HTTP 500 surfaces as the generic
"Status not OK" error. -/
theorem C2_placeNearby_contract_witness :
    (geomap.PlaceNearby [] (.response 500 (.parsed .null))).1.2 =
      some ⟨"Status not OK"⟩ :=
  (C2_placeNearby_contract [] (.response 500 (.parsed .null))).2.2.1 500
    (.parsed .null) rfl (by decide)

/-- C3: whenever the outbound nearby-search call fails, the Handler
returns the envelope `("Error", 400)` — one fixed envelope, identical for
every failure kind — and passes the underlying error through to the
invoking runtime. -/
theorem C3_handler_failure_envelope (request : APIGatewayProxyRequest) (u : Upstream)
    (e : GoError) (h : (geomap.PlaceNearby (geoParams request) u).1.2 = some e) :
    (Handler request u).1.1 = ⟨"Error", 400⟩ ∧ (Handler request u).1.2 = some e := by
  rw [handler_error h]
  exact ⟨rfl, rfl⟩

/-- Witness for C3 at a concrete failing upstream (HTTP 500). -/
theorem C3_handler_failure_envelope_witness :
    (geomap.PlaceNearby (geoParams ⟨[]⟩) (.response 500 (.parsed .null))).1.2 =
      some ⟨"Status not OK"⟩ ∧
    (Handler ⟨[]⟩ (.response 500 (.parsed .null))).1.1 = ⟨"Error", 400⟩ ∧
    (Handler ⟨[]⟩ (.response 500 (.parsed .null))).1.2 = some ⟨"Status not OK"⟩ :=
  ⟨rfl, C3_handler_failure_envelope ⟨[]⟩ (.response 500 (.parsed .null))
    ⟨"Status not OK"⟩ rfl⟩

/-- C4: whenever the outbound nearby-search call succeeds with decoded
structure `v`, the Handler returns status 200 with the JSON serialization
of `v` as body, and no error. -/
theorem C4_handler_success (request : APIGatewayProxyRequest) (j : GoValue)
    (v : geomap.GoogleNearbySearchResponse)
    (h : geomap.decodeGoogleNearbySearchResponse j = .ok v) :
    (Handler request (.response 200 (.parsed j))).1 =
      (⟨printGoValue (geomap.encodeGoogleNearbySearchResponse v), 200⟩, none) := by
  have hpn := geomap.placeNearby_decodeOk (geoParams request) h
  rw [handler_ok (by rw [hpn])]
  rw [hpn]
  rfl

/-- Witness for C4 at a concrete well-formed payload with status "OK". -/
theorem C4_handler_success_witness :
    geomap.decodeGoogleNearbySearchResponse (.obj [("status", .str "OK")]) =
      .ok ⟨none, none, "OK"⟩ ∧
    (Handler ⟨[]⟩ (.response 200 (.parsed (.obj [("status", .str "OK")])))).1 =
      (⟨printGoValue (geomap.encodeGoogleNearbySearchResponse ⟨none, none, "OK"⟩), 200⟩,
       none) :=
  ⟨rfl, C4_handler_success ⟨[]⟩ (.obj [("status", .str "OK")]) ⟨none, none, "OK"⟩ rfl⟩

/-! Helpers for C5 (Go map write semantics) and C10 (body non-empty). -/

lemma lookup_replace (k v : String) : ∀ m : List (String × String),
    (m.map (fun p => if p.1 = k then (k, v) else p)).lookup k =
      if m.any (fun p => p.1 = k) then some v else none := by
  intro m
  induction m with
  | nil => rfl
  | cons q rest ih =>
    obtain ⟨k', v'⟩ := q
    simp only [List.map_cons, List.any_cons]
    by_cases hq : k' = k
    · subst hq
      simp
    · rw [if_neg (by simpa using hq)]
      simp only [List.lookup_cons, beq_false_of_ne (Ne.symm hq)]
      have hd : (decide (k' = k)) = false := by simp [hq]
      simp only [ih, hd, Bool.false_or]

lemma lookup_append_fresh (k v : String) : ∀ m : List (String × String),
    m.any (fun p => p.1 = k) = false → (m ++ [(k, v)]).lookup k = some v := by
  intro m
  induction m with
  | nil =>
    intro _
    simp [List.lookup]
  | cons q rest ih =>
    intro h
    obtain ⟨k', v'⟩ := q
    simp only [List.any_cons, Bool.or_eq_false_iff, decide_eq_false_iff_not] at h
    obtain ⟨hq, hrest⟩ := h
    rw [List.cons_append]
    simp only [List.lookup_cons, beq_false_of_ne (Ne.symm hq)]
    exact ih hrest

lemma mapGet_mapInsert (m : List (String × String)) (k v : String) :
    mapGet (mapInsert m k v) k = v := by
  rw [mapInsert]
  by_cases hany : m.any (fun p => p.1 = k)
  · rw [if_pos hany, mapGet, lookup_replace, if_pos hany]
    rfl
  · rw [if_neg hany, mapGet,
      lookup_append_fresh k v m (by simp only [Bool.not_eq_true] at hany; exact hany)]
    rfl

lemma printGoValue_obj (fs : List (String × GoValue)) :
    printGoValue (.obj fs) =
      "\x7b" ++ String.intercalate ","
        (fs.attach.map (fun p => jsonQuote p.1.1 ++ ":" ++ printGoValue p.1.2)) ++ "\x7d" := by
  rw [printGoValue]

lemma jsonMarshal_ne_empty (x : geomap.GoogleNearbySearchResponse) :
    (jsonMarshal x).1 ≠ "" := by
  show printGoValue (geomap.encodeGoogleNearbySearchResponse x) ≠ ""
  rw [geomap.encodeGoogleNearbySearchResponse, printGoValue_obj]
  intro h
  have hlen := congrArg String.length h
  rw [String.length_append, String.length_append] at hlen
  have h1 : ("\x7b" : String).length = 1 := rfl
  have h2 : ("" : String).length = 0 := rfl
  omega

/-- C5: the outbound GET request targets the fixed endpoint of the variant
(nearby search here), its query string carries exactly the mapping's
entries — one per key, nothing else (formalized: the encoded query pairs
are a permutation of the mapping's entries, which have unique keys since
they come from a Go map) — and at the map-construction level a duplicate
key write wins over the previous binding. -/
theorem C5_request_construction (params : List (String × String))
    (hnd : (params.map Prod.fst).Nodup) :
    (∀ s b, (geomap.PlaceNearby params (.response s b)).2.sentRequest =
      some (buildRequest nearbyURL params)) ∧
    (buildRequest nearbyURL params).url = nearbyURL ∧
    List.Perm (buildRequest nearbyURL params).queryPairs params ∧
    (∀ (m : List (String × String)) k v, mapGet (mapInsert m k v) k = v) := by
  refine ⟨?_, rfl, buildRequest_perm hnd nearbyURL, fun m k v => mapGet_mapInsert m k v⟩
  intro s b
  by_cases hs : s = 200
  · subst hs
    cases b with
    | readError e => rw [geomap.placeNearby_readError]
    | malformed e => rw [geomap.placeNearby_malformed]
    | parsed j =>
      cases hd : geomap.decodeGoogleNearbySearchResponse j with
      | error e => rw [geomap.placeNearby_decodeError params hd]
      | ok v => rw [geomap.placeNearby_decodeOk params hd]
  · rw [geomap.placeNearby_not200 params b hs]

/-- Witness for C5 at a concrete mapping. -/
theorem C5_request_construction_witness :
    (([("location", "1,2"), ("radius", "500"), ("key", "k")].map Prod.fst).Nodup) ∧
    List.Perm (buildRequest nearbyURL
      [("location", "1,2"), ("radius", "500"), ("key", "k")]).queryPairs
      [("location", "1,2"), ("radius", "500"), ("key", "k")] :=
  ⟨by decide,
   (C5_request_construction [("location", "1,2"), ("radius", "500"), ("key", "k")]
     (by decide)).2.2.1⟩

/-- Counterexample to C6 as stated: on the non-200-status path the
response body is NOT released — the `defer resp.Body.Close()` stands after
the status check, so the function returns before registering it.  At the
concrete upstream `HTTP 500` the call runs (one network call) yet
`bodyClosed` is `false`. -/
theorem C6_release_counterexample :
    (geomap.PlaceNearby [] (.response 500 (.parsed .null))).2.networkCalls = 1 ∧
    (geomap.PlaceNearby [] (.response 500 (.parsed .null))).2.bodyClosed = false :=
  ⟨rfl, rfl⟩

/-- C6 (amended): exactly one outbound network call is made whenever
request construction succeeds (none when it fails), and the response body
is released before return exactly on the paths where reading can begin —
the body-read-failure, JSON-decode-failure and success paths under status
200 — while on the non-200-status path (and on transport failure) the
function returns without releasing the body. -/
theorem C6_amended_effects (params : List (String × String)) (u : Upstream) :
    (∀ e, u = .reqError e → (geomap.PlaceNearby params u).2.networkCalls = 0 ∧
      (geomap.PlaceNearby params u).2.bodyClosed = false) ∧
    (∀ e, u = .transportError e → (geomap.PlaceNearby params u).2.networkCalls = 1 ∧
      (geomap.PlaceNearby params u).2.bodyClosed = false) ∧
    (∀ s b, u = .response s b → (geomap.PlaceNearby params u).2.networkCalls = 1 ∧
      ((geomap.PlaceNearby params u).2.bodyClosed = true ↔ s = 200)) := by
  refine ⟨?_, ?_, ?_⟩
  · rintro e rfl
    rw [geomap.placeNearby_reqError]
    exact ⟨rfl, rfl⟩
  · rintro e rfl
    rw [geomap.placeNearby_transportError]
    exact ⟨rfl, rfl⟩
  · rintro s b rfl
    by_cases hs : s = 200
    · subst hs
      cases b with
      | readError e => rw [geomap.placeNearby_readError]; simp
      | malformed e => rw [geomap.placeNearby_malformed]; simp
      | parsed j =>
        cases hd : geomap.decodeGoogleNearbySearchResponse j with
        | error e => rw [geomap.placeNearby_decodeError params hd]; simp
        | ok v => rw [geomap.placeNearby_decodeOk params hd]; simp
    · rw [geomap.placeNearby_not200 params b hs]
      simp [hs]

/-- Witness for C6 (amended): on a body-read failure under status 200 the
body is released. -/
theorem C6_amended_effects_witness :
    (geomap.PlaceNearby [] (.response 200 (.readError ⟨"read failed"⟩))).2.networkCalls = 1 ∧
    ((geomap.PlaceNearby [] (.response 200 (.readError ⟨"read failed"⟩))).2.bodyClosed = true ↔
      (200 : Nat) = 200) :=
  (C6_amended_effects [] (.response 200 (.readError ⟨"read failed"⟩))).2.2 200
    (.readError ⟨"read failed"⟩) rfl

/-- C7: the three clients are instances of one control flow (`apiGet`),
differing only in fixed target URL and destination schema/decoder: for
every parameter mapping and every upstream behavior each equals the
generic call at its URL and decoder, hence they share the identical
build/attach/execute/check/read/decode sequence and error branching. -/
theorem C7_shared_control_flow :
    (∀ params u, geomap.GetGeocode params u =
      geomap.apiGet geocodeURL geomap.decodeGoogleGeocodeResponse
        geomap.GoogleGeocodeResponse.zero params u) ∧
    (∀ params u, geomap.FindPlace params u =
      geomap.apiGet findPlaceURL geomap.decodeGooglePlaceSearchResponse
        geomap.GooglePlaceSearchResponse.zero params u) ∧
    (∀ params u, geomap.PlaceNearby params u =
      geomap.apiGet nearbyURL geomap.decodeGoogleNearbySearchResponse
        geomap.GoogleNearbySearchResponse.zero params u) :=
  ⟨fun params u => by
    cases u with
    | reqError e => rfl
    | transportError e => rfl
    | response s b =>
      by_cases hs : s = 200
      · subst hs
        cases b with
        | readError e => simp [geomap.GetGeocode, geomap.apiGet, geocodeURL]
        | malformed e => simp [geomap.GetGeocode, geomap.apiGet, geocodeURL]
        | parsed j =>
          cases hd : geomap.decodeGoogleGeocodeResponse j <;>
            simp [geomap.GetGeocode, geomap.apiGet, geocodeURL, hd]
      · simp [geomap.GetGeocode, geomap.apiGet, geocodeURL, hs],
   fun params u => by
    cases u with
    | reqError e => rfl
    | transportError e => rfl
    | response s b =>
      by_cases hs : s = 200
      · subst hs
        cases b with
        | readError e => simp [geomap.FindPlace, geomap.apiGet, findPlaceURL]
        | malformed e => simp [geomap.FindPlace, geomap.apiGet, findPlaceURL]
        | parsed j =>
          cases hd : geomap.decodeGooglePlaceSearchResponse j <;>
            simp [geomap.FindPlace, geomap.apiGet, findPlaceURL, hd]
      · simp [geomap.FindPlace, geomap.apiGet, findPlaceURL, hs],
   fun params u => by
    cases u with
    | reqError e => rfl
    | transportError e => rfl
    | response s b =>
      by_cases hs : s = 200
      · subst hs
        cases b with
        | readError e => simp [geomap.PlaceNearby, geomap.apiGet, nearbyURL]
        | malformed e => simp [geomap.PlaceNearby, geomap.apiGet, nearbyURL]
        | parsed j =>
          cases hd : geomap.decodeGoogleNearbySearchResponse j <;>
            simp [geomap.PlaceNearby, geomap.apiGet, nearbyURL, hd]
      · simp [geomap.PlaceNearby, geomap.apiGet, nearbyURL, hs]⟩

/-- C8: for every value of the nearby-search schema obtained by decoding a
JSON payload, encoding it back and decoding again yields the identical
structure. -/
theorem C8_decode_encode_roundtrip (p : GoValue) (v : geomap.GoogleNearbySearchResponse)
    (h : geomap.decodeGoogleNearbySearchResponse p = .ok v) :
    geomap.decodeGoogleNearbySearchResponse
      (geomap.encodeGoogleNearbySearchResponse v) = .ok v :=
  geomap.decode_encode_GoogleNearbySearchResponse (geomap.decode_canonicalAttrs h)

/-- Witness for C8 at a concrete payload. -/
theorem C8_decode_encode_roundtrip_witness :
    geomap.decodeGoogleNearbySearchResponse (.obj [("status", .str "OK")]) =
      .ok ⟨none, none, "OK"⟩ ∧
    geomap.decodeGoogleNearbySearchResponse
      (geomap.encodeGoogleNearbySearchResponse ⟨none, none, "OK"⟩) =
      .ok ⟨none, none, "OK"⟩ :=
  ⟨rfl, C8_decode_encode_roundtrip (.obj [("status", .str "OK")]) ⟨none, none, "OK"⟩ rfl⟩

/-- C10 (implicit): every Handler response has status 200 or 400 and a
non-empty body; the returned error is `none` iff the status is 200 and
otherwise is exactly the error `PlaceNearby` returned; and since the
marshal error is discarded, a successful outbound call always yields the
200 response (serialization cannot turn success into failure). -/
theorem C10_handler_envelope_invariants (request : APIGatewayProxyRequest) (u : Upstream) :
    ((Handler request u).1.1.statusCode = 200 ∨ (Handler request u).1.1.statusCode = 400) ∧
    (Handler request u).1.1.body ≠ "" ∧
    ((Handler request u).1.2 = none ↔ (Handler request u).1.1.statusCode = 200) ∧
    (∀ e, (geomap.PlaceNearby (geoParams request) u).1.2 = some e →
      (Handler request u).1.2 = some e) ∧
    (∀ v, (geomap.PlaceNearby (geoParams request) u).1 = (v, none) →
      (Handler request u).1.2 = none ∧ (Handler request u).1.1.statusCode = 200) := by
  cases herr : (geomap.PlaceNearby (geoParams request) u).1.2 with
  | some e =>
    rw [handler_error herr]
    refine ⟨Or.inr rfl, by simp, by simp, ?_, ?_⟩
    · intro e' he'
      simp only [Option.some.injEq] at he'
      subst he'
      rfl
    · intro v hv
      have : (geomap.PlaceNearby (geoParams request) u).1.2 = none := by rw [hv]
      rw [herr] at this
      cases this
  | none =>
    rw [handler_ok herr]
    refine ⟨Or.inl rfl, ?_, by simp, ?_, ?_⟩
    · exact jsonMarshal_ne_empty _
    · intro e' he'
      simp at he'
    · intro v _
      exact ⟨rfl, rfl⟩

/-- Witness for C10 at a concrete transport failure. -/
theorem C10_handler_envelope_invariants_witness :
    ((Handler ⟨[]⟩ (.transportError ⟨"dial tcp: timeout"⟩)).1.1.statusCode = 200 ∨
     (Handler ⟨[]⟩ (.transportError ⟨"dial tcp: timeout"⟩)).1.1.statusCode = 400) ∧
    (Handler ⟨[]⟩ (.transportError ⟨"dial tcp: timeout"⟩)).1.2 =
      some ⟨"dial tcp: timeout"⟩ :=
  ⟨(C10_handler_envelope_invariants ⟨[]⟩ (.transportError ⟨"dial tcp: timeout"⟩)).1,
   (C10_handler_envelope_invariants ⟨[]⟩ (.transportError ⟨"dial tcp: timeout"⟩)).2.2.2.1
     ⟨"dial tcp: timeout"⟩ rfl⟩
